import Mathlib

/-!
Shallow embedding of the draw subsystem of the Amigo Secreto application
(src/app.py): the relational data model (User, Grupo, MembroGrupo,
SorteioIndividual), the draw route `realizar_sorteio_individual`, the
token-gated reveal route `ver_meu_sorteio` with `registrar_visualizacao`,
the admin status aggregate `status_sorteio_membros` / `api_status_sorteio`,
and the access decision of `ver_grupo`.

Modelling conventions:
* the database is a record of lists of rows; SQLAlchemy `query.filter_by(...).first()`
  becomes `List.find?`, `.all()` becomes `List.filter`;
* `random.choice(participantes)` takes an external index `k` and picks
  `participantes[k % length]` (the source checks the list is non-empty first);
* `secrets.token_urlsafe(32)` is an external oracle: the freshly generated
  token is a parameter `tok` of the draw operation;
* `datetime.utcnow()` is an external clock parameter `now : Nat`;
* the database-level unique constraint on `token_acesso`
  (`db.Column(..., unique=True, ...)`) rejects an insert whose token is
  already present: the commit raises IntegrityError, no row is stored and the
  request fails (modelled as the `integrityError` outcome).
-/

structure User where
  id : Nat
  nome : String
  email : String
deriving DecidableEq, Repr

structure Grupo where
  id : Nat
  nome : String
  admin_id : Nat
deriving DecidableEq, Repr

structure MembroGrupo where
  id : Nat
  usuario_id : Nat
  grupo_id : Nat
deriving DecidableEq, Repr

structure SorteioIndividual where
  id : Nat
  usuario_id : Nat
  grupo_id : Nat
  amigo_sorteado_id : Nat
  data_sorteio : Nat
  ultima_visualizacao : Option Nat
  vezes_visualizado : Nat
  token_acesso : String
deriving DecidableEq, Repr

structure DB where
  users : List User
  grupos : List Grupo
  membros : List MembroGrupo
  sorteios : List SorteioIndividual
deriving DecidableEq, Repr

/-- `Grupo.query.get(grupo_id)` / `Grupo.query.get_or_404(grupo_id)`. -/
def grupoGet (db : DB) (gid : Nat) : Option Grupo :=
  db.grupos.find? (fun g => g.id == gid)

/-- `User.query.get(uid)`, and the lazy relationships `membro.usuario` /
`sorteio.amigo` (the related row with the matching primary key). -/
def userById (db : DB) (uid : Nat) : Option User :=
  db.users.find? (fun u => u.id == uid)

/-- `MembroGrupo.query.filter_by(usuario_id=uid, grupo_id=gid).first()`. -/
def membroFirst (db : DB) (uid gid : Nat) : Option MembroGrupo :=
  db.membros.find? (fun m => m.usuario_id == uid && m.grupo_id == gid)

/-- `SorteioIndividual.query.filter_by(usuario_id=uid, grupo_id=gid).first()`. -/
def sorteioFirst (db : DB) (uid gid : Nat) : Option SorteioIndividual :=
  db.sorteios.find? (fun s => s.usuario_id == uid && s.grupo_id == gid)

/-- `MembroGrupo.query.filter_by(grupo_id=gid).all()` (also the lazy
relationship `grupo.membros`). -/
def membrosDoGrupo (db : DB) (gid : Nat) : List MembroGrupo :=
  db.membros.filter (fun m => m.grupo_id == gid)

/-- `participantes = [m.usuario for m in membros if m.usuario_id != current_user.id]`. -/
def participantes (db : DB) (uid gid : Nat) : List User :=
  ((membrosDoGrupo db gid).filter (fun m => m.usuario_id != uid)).filterMap
    (fun m => userById db m.usuario_id)

/-- Outcome of `POST /grupo/<grupo_id>/realizar-sorteio`. -/
inductive DrawResult where
  /-- `Grupo.query.get_or_404` misses: HTTP 404. -/
  | notFound
  /-- `{'error': 'Você não é membro deste grupo!'}`, HTTP 403. -/
  | notMember
  /-- `{'error': 'Você já realizou o sorteio!', 'redirect': ...token...}`, HTTP 400;
  carries the existing draw's access token used to build the redirect. -/
  | alreadyDrawn (token : String)
  /-- `{'error': 'Não há participantes disponíveis!'}`, HTTP 400. -/
  | noCandidates
  /-- the commit violates the unique constraint on `token_acesso`: HTTP 500. -/
  | integrityError
  /-- `{'success': True, 'amigo': {'id', 'nome', 'email'}, 'token', 'redirect'}`. -/
  | success (amigoId : Nat) (amigoNome : String) (amigoEmail : String) (token : String)
deriving DecidableEq, Repr

/-- HTTP status code attached to each outcome of the draw route. -/
def DrawResult.httpStatus : DrawResult → Nat
  | .notFound => 404
  | .notMember => 403
  | .alreadyDrawn _ => 400
  | .noCandidates => 400
  | .integrityError => 500
  | .success _ _ _ _ => 200

/-- `realizar_sorteio_individual(grupo_id)` for authenticated user `uid`:
membership check, already-drawn check, candidate pool, `random.choice`
(index `k`), insert of the new `SorteioIndividual` row with the freshly
generated token `tok`, current time `now` and fresh primary key `newId`. -/
def realizar_sorteio_individual (db : DB) (uid gid : Nat) (k : Nat) (tok : String)
    (now : Nat) (newId : Nat) : DrawResult × DB :=
  match grupoGet db gid with
  | none => (.notFound, db)
  | some _grupo =>
    match membroFirst db uid gid with
    | none => (.notMember, db)
    | some _membro =>
      match sorteioFirst db uid gid with
      | some sorteio_existente => (.alreadyDrawn sorteio_existente.token_acesso, db)
      | none =>
        let ps := participantes db uid gid
        if ps.length < 1 then
          (.noCandidates, db)
        else
          let amigo_sorteado := ps.getD (k % ps.length) ⟨0, "", ""⟩
          if db.sorteios.any (fun s => s.token_acesso == tok) then
            (.integrityError, db)
          else
            let sorteio : SorteioIndividual :=
              { id := newId
                usuario_id := uid
                grupo_id := gid
                amigo_sorteado_id := amigo_sorteado.id
                data_sorteio := now
                ultima_visualizacao := none
                vezes_visualizado := 0
                token_acesso := tok }
            (.success amigo_sorteado.id amigo_sorteado.nome amigo_sorteado.email tok,
             { db with sorteios := db.sorteios ++ [sorteio] })

/-- `SorteioIndividual.registrar_visualizacao`: sets `ultima_visualizacao`
to the current time and increments `vezes_visualizado` by one. -/
def registrar_visualizacao (s : SorteioIndividual) (now : Nat) : SorteioIndividual :=
  { s with ultima_visualizacao := some now, vezes_visualizado := s.vezes_visualizado + 1 }

/-- Outcome of `GET /meu-sorteio/<token>`. -/
inductive RevealResult where
  /-- `first_or_404` misses: HTTP 404. -/
  | notFound
  /-- `'Acesso negado! Este sorteio não é seu.'` flashed, redirect to dashboard. -/
  | forbidden
  /-- the draw's group row is missing, `grupo.id` raises: HTTP 500
  (the view was nonetheless already recorded and committed). -/
  | serverError
  /-- the reveal page rendered with the drawn friend. -/
  | success (amigoId : Nat)
deriving DecidableEq, Repr

/-- `ver_meu_sorteio(token)` for authenticated user `uid` at time `now`:
resolve the draw by token, check the caller is the draw's owner, record the
view (committed), then load the group and render. -/
def ver_meu_sorteio (db : DB) (uid : Nat) (token : String) (now : Nat) :
    RevealResult × DB :=
  match db.sorteios.find? (fun s => s.token_acesso == token) with
  | none => (.notFound, db)
  | some sorteio =>
    if sorteio.usuario_id != uid then
      (.forbidden, db)
    else
      let db' := { db with
        sorteios := db.sorteios.map
          (fun t => if t.id == sorteio.id then registrar_visualizacao sorteio now else t) }
      match grupoGet db' sorteio.grupo_id with
      | none => (.serverError, db')
      | some _grupo => (.success sorteio.amigo_sorteado_id, db')

/-- One entry of `Grupo.status_sorteio_membros`. -/
structure MemberStatus where
  membro : MembroGrupo
  ja_sorteou : Bool
  data_sorteio : Option Nat
  amigo_sorteado : Option User
deriving DecidableEq, Repr

/-- `Grupo.status_sorteio_membros`: for every current member, look up that
member's draw in this group. -/
def status_sorteio_membros (db : DB) (g : Grupo) : List MemberStatus :=
  (membrosDoGrupo db g.id).map (fun membro =>
    match sorteioFirst db membro.usuario_id g.id with
    | some sorteio =>
      { membro := membro
        ja_sorteou := true
        data_sorteio := some sorteio.data_sorteio
        amigo_sorteado := userById db sorteio.amigo_sorteado_id }
    | none =>
      { membro := membro
        ja_sorteou := false
        data_sorteio := none
        amigo_sorteado := none })

/-- One member entry of the JSON of `GET /api/grupo/<grupo_id>/status-sorteio`. -/
structure StatusEntry where
  id : Nat
  usuario_id : Nat
  nome : Option String
  email : Option String
  ja_sorteou : Bool
  data_sorteio : Option Nat
  amigo_sorteado : Option String
deriving DecidableEq, Repr

/-- Outcome of `GET /api/grupo/<grupo_id>/status-sorteio`. -/
inductive StatusApiResult where
  /-- `get_or_404` misses: HTTP 404. -/
  | notFound
  /-- `'Acesso negado! Apenas o admin pode ver este status.'`, HTTP 403. -/
  | forbidden
  /-- the JSON aggregate: group id, name, member count, and one entry per member. -/
  | ok (grupoId : Nat) (grupoNome : String) (totalMembros : Nat) (membros : List StatusEntry)
deriving DecidableEq, Repr

/-- `api_status_sorteio(grupo_id)` for authenticated user `uid`: admin-only
read of the per-member draw status. -/
def api_status_sorteio (db : DB) (uid gid : Nat) : StatusApiResult × DB :=
  match grupoGet db gid with
  | none => (.notFound, db)
  | some grupo =>
    if grupo.admin_id != uid then
      (.forbidden, db)
    else
      let status_membros := status_sorteio_membros db grupo
      (.ok grupo.id grupo.nome status_membros.length
        (status_membros.map (fun st =>
          { id := st.membro.id
            usuario_id := st.membro.usuario_id
            nome := (userById db st.membro.usuario_id).map (fun u => u.nome)
            email := (userById db st.membro.usuario_id).map (fun u => u.email)
            ja_sorteou := st.ja_sorteou
            data_sorteio := st.data_sorteio
            amigo_sorteado := st.amigo_sorteado.map (fun u => u.nome) })),
       db)

/-- Access decision of `GET /grupo/<grupo_id>` (`ver_grupo`). -/
inductive GrupoViewResult where
  /-- `get_or_404` misses: HTTP 404. -/
  | notFound
  /-- `'Acesso negado!'` flashed, redirect to dashboard. -/
  | accessDenied
  /-- the group page is rendered. -/
  | ok
deriving DecidableEq, Repr

/-- The access control of `ver_grupo(grupo_id)`: denied iff the caller is
neither a member nor the group's admin. -/
def ver_grupo (db : DB) (uid gid : Nat) : GrupoViewResult :=
  match grupoGet db gid with
  | none => .notFound
  | some grupo =>
    match membroFirst db uid gid with
    | some _membro => .ok
    | none => if grupo.admin_id == uid then .ok else .accessDenied

/-- Invariant: no two rows of the draw table share the same
(usuario_id, grupo_id) pair. -/
def drawPairUnique (l : List SorteioIndividual) : Prop :=
  l.Pairwise (fun a b => ¬(a.usuario_id = b.usuario_id ∧ a.grupo_id = b.grupo_id))

/-- Invariant: all access tokens in the draw table are pairwise distinct. -/
def tokensDistinct (l : List SorteioIndividual) : Prop :=
  l.Pairwise (fun a b => a.token_acesso ≠ b.token_acesso)

/-! ## A concrete database used to exercise the operations

Group 10 ("Natal", admin Alice) has members Alice, Bob and Carol, and Bob
has already drawn Carol (token "tokB"). Group 20 ("Festa") is administered
by Dave, who is not one of its members (Alice and Bob are). -/

def exUsers : List User :=
  [⟨1, "Alice", "alice@example.com"⟩, ⟨2, "Bob", "bob@example.com"⟩,
   ⟨3, "Carol", "carol@example.com"⟩, ⟨4, "Dave", "dave@example.com"⟩]

def exGrupoNatal : Grupo := ⟨10, "Natal", 1⟩

def exGrupoFesta : Grupo := ⟨20, "Festa", 4⟩

def exMembros : List MembroGrupo :=
  [⟨1, 1, 10⟩, ⟨2, 2, 10⟩, ⟨3, 3, 10⟩, ⟨4, 1, 20⟩, ⟨5, 2, 20⟩]

def exSorteios : List SorteioIndividual :=
  [⟨1, 2, 10, 3, 100, none, 0, "tokB"⟩]

def exDB : DB := ⟨exUsers, [exGrupoNatal, exGrupoFesta], exMembros, exSorteios⟩

/-! ## Basic facts about the queries and the candidate pool -/

/-- An element picked by `random.choice` (index `k` into a non-empty list)
belongs to the list. -/
lemma getD_mod_mem (l : List User) (k : Nat) (d : User) (h : ¬ l.length < 1) :
    l.getD (k % l.length) d ∈ l := by
  have hl : 0 < l.length := Nat.lt_of_lt_of_le Nat.zero_lt_one (Nat.le_of_not_lt h)
  have hk : k % l.length < l.length := Nat.mod_lt _ hl
  rw [List.getD_eq_getElem l d hk]
  exact List.getElem_mem hk

/-- Every user in the candidate pool is distinct from the drawing user and
backed by a membership row of the group. -/
lemma mem_participantes (db : DB) (uid gid : Nat) (u : User)
    (hu : u ∈ participantes db uid gid) :
    u.id ≠ uid ∧ ∃ m, m ∈ db.membros ∧ m.grupo_id = gid ∧ m.usuario_id = u.id := by
  unfold participantes membrosDoGrupo userById at hu
  rw [List.mem_filterMap] at hu
  obtain ⟨m, hm, hfind⟩ := hu
  rw [List.mem_filter] at hm
  obtain ⟨hm1, hm2⟩ := hm
  rw [List.mem_filter] at hm1
  obtain ⟨hmem, hgid⟩ := hm1
  have hid := List.find?_some hfind
  have hid' : u.id = m.usuario_id := by simpa using hid
  have hne : m.usuario_id ≠ uid := by simpa using hm2
  have hg : m.grupo_id = gid := by simpa using hgid
  exact ⟨by rw [hid']; exact hne, m, hmem, hg, hid'.symm⟩

/-! ## Branch lemmas for `realizar_sorteio_individual` -/

/-- Missing group: 404, no state change. -/
lemma realizar_grupo_missing (db : DB) (uid gid k : Nat) (tok : String) (now newId : Nat)
    (hG : grupoGet db gid = none) :
    realizar_sorteio_individual db uid gid k tok now newId = (.notFound, db) := by
  simp [realizar_sorteio_individual, hG]

/-- Not a member: 403, no state change (checked before everything else
once the group resolves). -/
lemma realizar_not_member (db : DB) (uid gid k : Nat) (tok : String) (now newId : Nat)
    (g : Grupo) (hG : grupoGet db gid = some g) (hM : membroFirst db uid gid = none) :
    realizar_sorteio_individual db uid gid k tok now newId = (.notMember, db) := by
  simp [realizar_sorteio_individual, hG, hM]

/-- Existing draw: 400 with the found draw's token, no state change. -/
lemma realizar_already (db : DB) (uid gid k : Nat) (tok : String) (now newId : Nat)
    (g : Grupo) (m : MembroGrupo) (s : SorteioIndividual)
    (hG : grupoGet db gid = some g) (hM : membroFirst db uid gid = some m)
    (hS : sorteioFirst db uid gid = some s) :
    realizar_sorteio_individual db uid gid k tok now newId =
      (.alreadyDrawn s.token_acesso, db) := by
  simp [realizar_sorteio_individual, hG, hM, hS]

/-- Empty candidate pool: 400, no state change. -/
lemma realizar_no_candidates (db : DB) (uid gid k : Nat) (tok : String) (now newId : Nat)
    (g : Grupo) (m : MembroGrupo)
    (hG : grupoGet db gid = some g) (hM : membroFirst db uid gid = some m)
    (hS : sorteioFirst db uid gid = none) (hP : participantes db uid gid = []) :
    realizar_sorteio_individual db uid gid k tok now newId = (.noCandidates, db) := by
  simp [realizar_sorteio_individual, hG, hM, hS, hP]

/-- Successful draw: the chosen friend is `participantes[k % length]` and the
new row is appended. -/
lemma realizar_success (db : DB) (uid gid k : Nat) (tok : String) (now newId : Nat)
    (g : Grupo) (m : MembroGrupo)
    (hG : grupoGet db gid = some g) (hM : membroFirst db uid gid = some m)
    (hS : sorteioFirst db uid gid = none)
    (hP : ¬ (participantes db uid gid).length < 1)
    (hT : db.sorteios.any (fun s => s.token_acesso == tok) = false) :
    realizar_sorteio_individual db uid gid k tok now newId =
      ((.success ((participantes db uid gid).getD (k % (participantes db uid gid).length) ⟨0, "", ""⟩).id
          ((participantes db uid gid).getD (k % (participantes db uid gid).length) ⟨0, "", ""⟩).nome
          ((participantes db uid gid).getD (k % (participantes db uid gid).length) ⟨0, "", ""⟩).email
          tok),
       { db with sorteios := db.sorteios ++
          [⟨newId, uid, gid,
            ((participantes db uid gid).getD (k % (participantes db uid gid).length) ⟨0, "", ""⟩).id,
            now, none, 0, tok⟩] }) := by
  simp [realizar_sorteio_individual, hG, hM, hS, hP, hT]

/-- Token unique-constraint violation: the commit fails, no state change. -/
lemma realizar_integrity (db : DB) (uid gid k : Nat) (tok : String) (now newId : Nat)
    (g : Grupo) (m : MembroGrupo)
    (hG : grupoGet db gid = some g) (hM : membroFirst db uid gid = some m)
    (hS : sorteioFirst db uid gid = none)
    (hP : ¬ (participantes db uid gid).length < 1)
    (hT : db.sorteios.any (fun s => s.token_acesso == tok) = true) :
    realizar_sorteio_individual db uid gid k tok now newId = (.integrityError, db) := by
  simp [realizar_sorteio_individual, hG, hM, hS, hP, hT]

/-- The post-state of the draw route: either unchanged, or (when no previous
draw existed and the fresh token passes the unique constraint) exactly one
new row for the calling (user, group) pair with the fresh token appended. -/
lemma realizar_state_shape (db : DB) (uid gid k : Nat) (tok : String) (now newId : Nat) :
    (realizar_sorteio_individual db uid gid k tok now newId).2 = db ∨
    (sorteioFirst db uid gid = none ∧
     db.sorteios.any (fun s => s.token_acesso == tok) = false ∧
     ∃ aid, (realizar_sorteio_individual db uid gid k tok now newId).2 =
       { db with sorteios := db.sorteios ++ [⟨newId, uid, gid, aid, now, none, 0, tok⟩] }) := by
  cases hG : grupoGet db gid with
  | none => left; rw [realizar_grupo_missing db uid gid k tok now newId hG]
  | some g =>
    cases hM : membroFirst db uid gid with
    | none => left; rw [realizar_not_member db uid gid k tok now newId g hG hM]
    | some m =>
      cases hS : sorteioFirst db uid gid with
      | some s => left; rw [realizar_already db uid gid k tok now newId g m s hG hM hS]
      | none =>
        by_cases hP : (participantes db uid gid).length < 1
        · left
          have hP' : participantes db uid gid = [] :=
            List.length_eq_zero.mp (Nat.lt_one_iff.mp hP)
          rw [realizar_no_candidates db uid gid k tok now newId g m hG hM hS hP']
        · cases hT : db.sorteios.any (fun s => s.token_acesso == tok) with
          | true =>
            left
            rw [realizar_integrity db uid gid k tok now newId g m hG hM hS hP hT]
          | false =>
            right
            refine ⟨rfl, rfl,
              ((participantes db uid gid).getD (k % (participantes db uid gid).length) ⟨0, "", ""⟩).id, ?_⟩
            rw [realizar_success db uid gid k tok now newId g m hG hM hS hP hT]

/-- Inversion of a successful draw: the reported friend is a member of the
candidate pool and exactly one matching row was appended. -/
lemma realizar_success_inv (db : DB) (uid gid k : Nat) (tok : String) (now newId : Nat)
    (aid : Nat) (nm em t : String)
    (h : (realizar_sorteio_individual db uid gid k tok now newId).1 = .success aid nm em t) :
    ∃ u, u ∈ participantes db uid gid ∧ u.id = aid ∧ u.nome = nm ∧ u.email = em ∧ t = tok ∧
      (realizar_sorteio_individual db uid gid k tok now newId).2 =
        { db with sorteios := db.sorteios ++ [⟨newId, uid, gid, aid, now, none, 0, tok⟩] } := by
  cases hG : grupoGet db gid with
  | none =>
    rw [realizar_grupo_missing db uid gid k tok now newId hG] at h
    exact absurd h (by simp)
  | some g =>
    cases hM : membroFirst db uid gid with
    | none =>
      rw [realizar_not_member db uid gid k tok now newId g hG hM] at h
      exact absurd h (by simp)
    | some m =>
      cases hS : sorteioFirst db uid gid with
      | some s =>
        rw [realizar_already db uid gid k tok now newId g m s hG hM hS] at h
        exact absurd h (by simp)
      | none =>
        by_cases hP : (participantes db uid gid).length < 1
        · have hP' : participantes db uid gid = [] :=
            List.length_eq_zero.mp (Nat.lt_one_iff.mp hP)
          rw [realizar_no_candidates db uid gid k tok now newId g m hG hM hS hP'] at h
          exact absurd h (by simp)
        · cases hT : db.sorteios.any (fun s => s.token_acesso == tok) with
          | true =>
            rw [realizar_integrity db uid gid k tok now newId g m hG hM hS hP hT] at h
            exact absurd h (by simp)
          | false =>
            rw [realizar_success db uid gid k tok now newId g m hG hM hS hP hT] at h
            simp only [DrawResult.success.injEq] at h
            obtain ⟨h1, h2, h3, h4⟩ := h
            subst h1; subst h2; subst h3; subst h4
            exact ⟨(participantes db uid gid).getD (k % (participantes db uid gid).length) ⟨0, "", ""⟩,
              getD_mod_mem _ k _ hP, rfl, rfl, rfl, rfl,
              by rw [realizar_success db uid gid k tok now newId g m hG hM hS hP hT]⟩

/-! ## Branch lemmas for `ver_meu_sorteio` -/

/-- Updating only the draw table does not change a group lookup. -/
lemma grupoGet_sorteios_update (db : DB) (l : List SorteioIndividual) (gid : Nat) :
    grupoGet { db with sorteios := l } gid = grupoGet db gid := rfl

/-- Unknown token: 404, no state change. -/
lemma ver_token_missing (db : DB) (uid : Nat) (token : String) (now : Nat)
    (h : db.sorteios.find? (fun s => s.token_acesso == token) = none) :
    ver_meu_sorteio db uid token now = (.notFound, db) := by
  simp [ver_meu_sorteio, h]

/-- The resolved draw belongs to someone else: denied, no state change. -/
lemma ver_forbidden (db : DB) (uid : Nat) (token : String) (now : Nat)
    (s : SorteioIndividual)
    (hfind : db.sorteios.find? (fun t => t.token_acesso == token) = some s)
    (hne : s.usuario_id ≠ uid) :
    ver_meu_sorteio db uid token now = (.forbidden, db) := by
  simp [ver_meu_sorteio, hfind, hne]

/-- Authorized view: exactly the resolved row is replaced by its
`registrar_visualizacao` update, whatever the subsequent group lookup does. -/
lemma ver_authorized_state (db : DB) (uid : Nat) (token : String) (now : Nat)
    (s : SorteioIndividual)
    (hfind : db.sorteios.find? (fun t => t.token_acesso == token) = some s)
    (hown : s.usuario_id = uid) :
    (ver_meu_sorteio db uid token now).2 =
      { db with sorteios := db.sorteios.map
                    (fun t => if t.id == s.id then registrar_visualizacao s now else t) } := by
  simp only [ver_meu_sorteio, hfind, hown, bne_self_eq_false, Bool.false_eq_true,
    if_false]
  split <;> rfl

/-- Authorized view with the group present: the reveal page is rendered
with the drawn friend. -/
lemma ver_ok (db : DB) (uid : Nat) (token : String) (now : Nat)
    (s : SorteioIndividual) (g : Grupo)
    (hfind : db.sorteios.find? (fun t => t.token_acesso == token) = some s)
    (hown : s.usuario_id = uid)
    (hg : grupoGet db s.grupo_id = some g) :
    (ver_meu_sorteio db uid token now).1 = .success s.amigo_sorteado_id := by
  simp only [ver_meu_sorteio, hfind, hown, bne_self_eq_false, Bool.false_eq_true,
    if_false, grupoGet_sorteios_update, hg]

/-- The post-state of the reveal route: either unchanged, or the draw
resolved by the token has its view recorded. -/
lemma ver_state_shape (db : DB) (uid : Nat) (token : String) (now : Nat) :
    (ver_meu_sorteio db uid token now).2 = db ∨
    ∃ s, db.sorteios.find? (fun t => t.token_acesso == token) = some s ∧
      (ver_meu_sorteio db uid token now).2 =
        { db with sorteios := db.sorteios.map
                      (fun t => if t.id == s.id then registrar_visualizacao s now else t) } := by
  cases hfind : db.sorteios.find? (fun t => t.token_acesso == token) with
  | none => left; rw [ver_token_missing db uid token now hfind]
  | some s =>
    by_cases hown : s.usuario_id = uid
    · right; exact ⟨s, rfl, ver_authorized_state db uid token now s hfind hown⟩
    · left; rw [ver_forbidden db uid token now s hfind hown]

/-! ## Preservation of the table invariants -/

/-- The draw route preserves at-most-one-draw-per-(user, group). -/
lemma drawPairUnique_realizar (db : DB) (uid gid k : Nat) (tok : String) (now newId : Nat)
    (h : drawPairUnique db.sorteios) :
    drawPairUnique ((realizar_sorteio_individual db uid gid k tok now newId).2).sorteios := by
  rcases realizar_state_shape db uid gid k tok now newId with h2 | ⟨hS, _hT, aid, h2⟩
  · rw [h2]; exact h
  · rw [h2]
    unfold drawPairUnique at h ⊢
    rw [List.pairwise_append]
    refine ⟨h, List.pairwise_singleton _ _, ?_⟩
    intro a ha b hb
    rw [List.mem_singleton] at hb
    subst hb
    unfold sorteioFirst at hS
    have hnp := List.find?_eq_none.mp hS a ha
    simp only [Bool.and_eq_true, beq_iff_eq, not_and] at hnp
    intro hcon
    exact hnp (by simpa using hcon.1) (by simpa using hcon.2)

/-- The draw route preserves pairwise-distinct access tokens (the freshly
inserted token passed the unique-constraint check). -/
lemma tokensDistinct_realizar (db : DB) (uid gid k : Nat) (tok : String) (now newId : Nat)
    (h : tokensDistinct db.sorteios) :
    tokensDistinct ((realizar_sorteio_individual db uid gid k tok now newId).2).sorteios := by
  rcases realizar_state_shape db uid gid k tok now newId with h2 | ⟨_hS, hT, aid, h2⟩
  · rw [h2]; exact h
  · rw [h2]
    unfold tokensDistinct at h ⊢
    rw [List.pairwise_append]
    refine ⟨h, List.pairwise_singleton _ _, ?_⟩
    intro a ha b hb
    rw [List.mem_singleton] at hb
    subst hb
    have hnp := List.any_eq_false.mp hT a ha
    simpa using hnp

/-- Recording a view never touches the access token. -/
lemma registrar_token (s : SorteioIndividual) (now : Nat) :
    (registrar_visualizacao s now).token_acesso = s.token_acesso := rfl

/-- Updating the resolved row by primary key preserves pairwise-distinct
tokens, provided primary keys are unique. -/
lemma tokensDistinct_view (l : List SorteioIndividual) (s : SorteioIndividual) (now : Nat)
    (hid : (l.map (fun t => t.id)).Nodup) (hs : s ∈ l) (h : tokensDistinct l) :
    tokensDistinct (l.map (fun t => if t.id == s.id then registrar_visualizacao s now else t)) := by
  have hkeep : ∀ t ∈ l,
      (if t.id == s.id then registrar_visualizacao s now else t).token_acesso = t.token_acesso := by
    intro t ht
    by_cases hc : t.id = s.id
    · have heq : t = s := List.inj_on_of_nodup_map hid ht hs hc
      subst heq
      simp [registrar_token]
    · simp [hc]
  unfold tokensDistinct at h ⊢
  rw [List.pairwise_map]
  exact h.imp_of_mem (fun ha hb hR => by
    rw [hkeep _ ha, hkeep _ hb]; exact hR)

/-- The reveal route preserves pairwise-distinct access tokens, provided
primary keys are unique. -/
lemma tokensDistinct_ver (db : DB) (uid : Nat) (token : String) (now : Nat)
    (hid : (db.sorteios.map (fun t => t.id)).Nodup)
    (h : tokensDistinct db.sorteios) :
    tokensDistinct ((ver_meu_sorteio db uid token now).2).sorteios := by
  rcases ver_state_shape db uid token now with h2 | ⟨s, hfind, h2⟩
  · rw [h2]; exact h
  · rw [h2]
    exact tokensDistinct_view db.sorteios s now hid (List.mem_of_find?_eq_some hfind) h

/-- Under the no-duplicate-pair invariant, two draw rows for the same
(user, group) pair are the same row. -/
lemma drawPairUnique_eq (l : List SorteioIndividual) (h : drawPairUnique l)
    (a b : SorteioIndividual) (ha : a ∈ l) (hb : b ∈ l)
    (hu : a.usuario_id = b.usuario_id) (hg : a.grupo_id = b.grupo_id) : a = b := by
  by_contra hne
  have hsym : Symmetric
      (fun a b : SorteioIndividual =>
        ¬(a.usuario_id = b.usuario_id ∧ a.grupo_id = b.grupo_id)) := by
    intro x y hxy hc
    exact hxy ⟨hc.1.symm, hc.2.symm⟩
  exact (h.forall hsym) ha hb hne ⟨hu, hg⟩

/-- The draw found by `sorteioFirst` is a table row for the requested pair. -/
lemma sorteioFirst_spec (db : DB) (uid gid : Nat) (s : SorteioIndividual)
    (h : sorteioFirst db uid gid = some s) :
    s ∈ db.sorteios ∧ s.usuario_id = uid ∧ s.grupo_id = gid := by
  unfold sorteioFirst at h
  have hmem := List.mem_of_find?_eq_some h
  have hp := List.find?_some h
  simp only [Bool.and_eq_true, beq_iff_eq] at hp
  exact ⟨hmem, hp.1, hp.2⟩

/-- If a row for the pair is in the table, `sorteioFirst` finds one. -/
lemma sorteioFirst_ne_none (db : DB) (uid gid : Nat) (d : SorteioIndividual)
    (hd : d ∈ db.sorteios) (hdu : d.usuario_id = uid) (hdg : d.grupo_id = gid) :
    sorteioFirst db uid gid ≠ none := by
  intro hnone
  unfold sorteioFirst at hnone
  exact absurd (by simp [hdu, hdg] : (d.usuario_id == uid && d.grupo_id == gid) = true)
    (List.find?_eq_none.mp hnone d hd)

/-! ## Facts about the status aggregator -/

/-- The entries of `status_sorteio_membros` are the group's members, in
order: projecting out the member gives back the member list. -/
lemma status_membros_proj (db : DB) (g : Grupo) :
    (status_sorteio_membros db g).map (fun st => st.membro) = membrosDoGrupo db g.id := by
  unfold status_sorteio_membros
  rw [List.map_map]
  conv_rhs => rw [(List.map_id (membrosDoGrupo db g.id)).symm]
  apply List.map_congr_left
  intro m _
  simp only [Function.comp]
  cases sorteioFirst db m.usuario_id g.id <;> rfl

/-- Pointwise description of one entry of `status_sorteio_membros`:
`ja_sorteou` holds exactly when a draw row exists for the member in the
group; the timestamp is present exactly when `ja_sorteou`; and, when every
draw's recipient has a user row, the recipient is present exactly when
`ja_sorteou`. -/
lemma status_entry (db : DB) (g : Grupo) (st : MemberStatus)
    (hst : st ∈ status_sorteio_membros db g) :
    st.membro ∈ membrosDoGrupo db g.id
    ∧ (st.ja_sorteou = true ↔
        ∃ s, s ∈ db.sorteios ∧ s.usuario_id = st.membro.usuario_id ∧ s.grupo_id = g.id)
    ∧ (st.data_sorteio ≠ none ↔ st.ja_sorteou = true)
    ∧ ((∀ s ∈ db.sorteios, ∃ u ∈ db.users, u.id = s.amigo_sorteado_id) →
        (st.amigo_sorteado ≠ none ↔ st.ja_sorteou = true)) := by
  unfold status_sorteio_membros at hst
  rw [List.mem_map] at hst
  obtain ⟨m, hm, heq⟩ := hst
  subst heq
  cases hS : sorteioFirst db m.usuario_id g.id with
  | none =>
    simp only [hS]
    refine ⟨hm, ?_, by simp, fun _ => by simp⟩
    simp only [Bool.false_eq_true, false_iff]
    rintro ⟨s, hs, hsu, hsg⟩
    exact sorteioFirst_ne_none db m.usuario_id g.id s hs hsu hsg hS
  | some s =>
    obtain ⟨hs, hsu, hsg⟩ := sorteioFirst_spec db m.usuario_id g.id s hS
    simp only [hS]
    refine ⟨hm, by simp; exact ⟨s, hs, hsu, hsg⟩, by simp, ?_⟩
    intro hfk
    refine iff_of_true ?_ (by simp)
    obtain ⟨u, hu, huid⟩ := hfk s hs
    intro hnone
    rw [Option.eq_none_iff_forall_not_mem] at hnone
    have : (userById db s.amigo_sorteado_id).isSome := by
      unfold userById
      rw [List.find?_isSome]
      exact ⟨u, hu, by simp [huid]⟩
    obtain ⟨v, hv⟩ := Option.isSome_iff_exists.mp this
    exact hnone v hv

/-- Read-only: the status endpoint never changes the database. -/
lemma api_state (db : DB) (uid gid : Nat) : (api_status_sorteio db uid gid).2 = db := by
  unfold api_status_sorteio
  split
  · rfl
  · split <;> rfl

/-- Non-admin callers are rejected by the status endpoint. -/
lemma api_forbidden (db : DB) (uid gid : Nat) (g : Grupo)
    (hG : grupoGet db gid = some g) (hadm : g.admin_id ≠ uid) :
    api_status_sorteio db uid gid = (.forbidden, db) := by
  simp [api_status_sorteio, hG, hadm]

/-! ## The claims -/

/-- C1: if a user who is a member of an existing group already has a draw
row for that group, `realizar_sorteio_individual` fails with the
already-drawn error carrying that existing draw's access token (used for
the redirect) and inserts nothing; and the route preserves the invariant
that the draw table never holds two rows for the same (usuario_id,
grupo_id) pair. -/
theorem C1_at_most_one_draw (db : DB) (uid gid k : Nat) (tok : String) (now newId : Nat)
    (g : Grupo) (d : SorteioIndividual)
    (hnodup : drawPairUnique db.sorteios)
    (hG : grupoGet db gid = some g)
    (hmem : membroFirst db uid gid ≠ none)
    (hd : d ∈ db.sorteios) (hdu : d.usuario_id = uid) (hdg : d.grupo_id = gid) :
    realizar_sorteio_individual db uid gid k tok now newId = (.alreadyDrawn d.token_acesso, db)
    ∧ drawPairUnique ((realizar_sorteio_individual db uid gid k tok now newId).2).sorteios := by
  cases hM : membroFirst db uid gid with
  | none => exact absurd hM hmem
  | some m =>
    cases hS : sorteioFirst db uid gid with
    | none => exact absurd hS (sorteioFirst_ne_none db uid gid d hd hdu hdg)
    | some s =>
      obtain ⟨hs, hsu, hsg⟩ := sorteioFirst_spec db uid gid s hS
      have hsd : s = d :=
        drawPairUnique_eq db.sorteios hnodup s d hs hd
          (hsu.trans hdu.symm) (hsg.trans hdg.symm)
      subst hsd
      exact ⟨realizar_already db uid gid k tok now newId g m s hG hM hS,
        drawPairUnique_realizar db uid gid k tok now newId hnodup⟩

/-- C1 witness: Bob (user 2) is a member of group 10 and already drew;
drawing again returns the stored token "tokB" and changes nothing. -/
theorem C1_at_most_one_draw_witness :
    (drawPairUnique exDB.sorteios ∧ grupoGet exDB 10 = some exGrupoNatal ∧
      membroFirst exDB 2 10 ≠ none ∧
      (⟨1, 2, 10, 3, 100, none, 0, "tokB"⟩ : SorteioIndividual) ∈ exDB.sorteios)
    ∧ (realizar_sorteio_individual exDB 2 10 0 "tokX" 200 2 = (.alreadyDrawn "tokB", exDB)
      ∧ drawPairUnique ((realizar_sorteio_individual exDB 2 10 0 "tokX" 200 2).2).sorteios) :=
  ⟨⟨by unfold drawPairUnique; decide, by decide, by decide, by decide⟩,
    C1_at_most_one_draw exDB 2 10 0 "tokX" 200 2 exGrupoNatal
      ⟨1, 2, 10, 3, 100, none, 0, "tokB"⟩ (by unfold drawPairUnique; decide) (by decide)
      (by decide) (by decide) (by decide) (by decide)⟩

/-- C2: a successful draw never assigns the drawing user to themselves:
the reported friend id differs from the caller, and the single row inserted
records the caller as `usuario_id` and the friend as `amigo_sorteado_id`. -/
theorem C2_no_self_assignment (db : DB) (uid gid k : Nat) (tok : String) (now newId : Nat)
    (aid : Nat) (nm em t : String)
    (h : (realizar_sorteio_individual db uid gid k tok now newId).1 = .success aid nm em t) :
    aid ≠ uid ∧
    (realizar_sorteio_individual db uid gid k tok now newId).2.sorteios =
      db.sorteios ++ [⟨newId, uid, gid, aid, now, none, 0, tok⟩] := by
  obtain ⟨u, hu, h1, _h2, _h3, _h4, h5⟩ :=
    realizar_success_inv db uid gid k tok now newId aid nm em t h
  refine ⟨?_, by rw [h5]⟩
  obtain ⟨hne, -⟩ := mem_participantes db uid gid u hu
  rw [← h1]; exact hne

/-- C2 witness: Alice (user 1) draws in group 10 with choice index 0 and
gets Bob (user 2), not herself. -/
theorem C2_no_self_assignment_witness :
    ((realizar_sorteio_individual exDB 1 10 0 "tokA" 200 2).1 =
      .success 2 "Bob" "bob@example.com" "tokA")
    ∧ ((2 : Nat) ≠ 1 ∧
      (realizar_sorteio_individual exDB 1 10 0 "tokA" 200 2).2.sorteios =
        exDB.sorteios ++ [⟨2, 1, 10, 2, 200, none, 0, "tokA"⟩]) :=
  ⟨by decide,
    C2_no_self_assignment exDB 1 10 0 "tokA" 200 2 2 "Bob" "bob@example.com" "tokA" (by decide)⟩

/-- C3: the recipient of a successful draw is backed by a membership row of
the drawn group held at draw time (the pre-state of the operation). -/
theorem C3_recipient_in_group (db : DB) (uid gid k : Nat) (tok : String) (now newId : Nat)
    (aid : Nat) (nm em t : String)
    (h : (realizar_sorteio_individual db uid gid k tok now newId).1 = .success aid nm em t) :
    ∃ m, m ∈ db.membros ∧ m.grupo_id = gid ∧ m.usuario_id = aid := by
  obtain ⟨u, hu, h1, -, -, -, -⟩ :=
    realizar_success_inv db uid gid k tok now newId aid nm em t h
  obtain ⟨-, m, hm, hmg, hmu⟩ := mem_participantes db uid gid u hu
  exact ⟨m, hm, hmg, by rw [hmu, h1]⟩

/-- C3 witness: the friend drawn by Alice in group 10 (Bob) is one of the
group's members. -/
theorem C3_recipient_in_group_witness :
    ((realizar_sorteio_individual exDB 1 10 0 "tokA" 200 2).1 =
      .success 2 "Bob" "bob@example.com" "tokA")
    ∧ ∃ m, m ∈ exDB.membros ∧ m.grupo_id = 10 ∧ m.usuario_id = 2 :=
  ⟨by decide,
    C3_recipient_in_group exDB 1 10 0 "tokA" 200 2 2 "Bob" "bob@example.com" "tokA" (by decide)⟩

/-- C4: once the group resolves, the draw route checks its preconditions in
a fixed order, each failing with its own error and HTTP status: (1) missing
membership gives the not-a-member error with 403 regardless of any later
condition; (2) an existing draw gives the already-drawn error with 400
carrying its token; (3) an empty candidate pool gives the no-candidates
error with 400; otherwise the JSON success payload carries the friend's id,
name and email together with the fresh token. -/
theorem C4_precondition_order (db : DB) (uid gid k : Nat) (tok : String) (now newId : Nat)
    (g : Grupo) (hG : grupoGet db gid = some g) :
    (membroFirst db uid gid = none →
      realizar_sorteio_individual db uid gid k tok now newId = (.notMember, db)
      ∧ DrawResult.httpStatus .notMember = 403)
    ∧ (∀ m s, membroFirst db uid gid = some m → sorteioFirst db uid gid = some s →
      realizar_sorteio_individual db uid gid k tok now newId = (.alreadyDrawn s.token_acesso, db)
      ∧ DrawResult.httpStatus (.alreadyDrawn s.token_acesso) = 400)
    ∧ (∀ m, membroFirst db uid gid = some m → sorteioFirst db uid gid = none →
      participantes db uid gid = [] →
      realizar_sorteio_individual db uid gid k tok now newId = (.noCandidates, db)
      ∧ DrawResult.httpStatus .noCandidates = 400)
    ∧ (∀ m, membroFirst db uid gid = some m → sorteioFirst db uid gid = none →
      participantes db uid gid ≠ [] →
      db.sorteios.any (fun s => s.token_acesso == tok) = false →
      ∃ u, u ∈ participantes db uid gid ∧
        (realizar_sorteio_individual db uid gid k tok now newId).1 =
          .success u.id u.nome u.email tok
        ∧ DrawResult.httpStatus (.success u.id u.nome u.email tok) = 200) := by
  refine ⟨?_, ?_, ?_, ?_⟩
  · intro hM
    exact ⟨realizar_not_member db uid gid k tok now newId g hG hM, rfl⟩
  · intro m s hM hS
    exact ⟨realizar_already db uid gid k tok now newId g m s hG hM hS, rfl⟩
  · intro m hM hS hP
    exact ⟨realizar_no_candidates db uid gid k tok now newId g m hG hM hS hP, rfl⟩
  · intro m hM hS hP hT
    have hP' : ¬ (participantes db uid gid).length < 1 := by
      intro hlt
      exact hP (List.length_eq_zero.mp (Nat.lt_one_iff.mp hlt))
    refine ⟨(participantes db uid gid).getD (k % (participantes db uid gid).length) ⟨0, "", ""⟩,
      getD_mod_mem _ k _ hP', ?_, rfl⟩
    rw [realizar_success db uid gid k tok now newId g m hG hM hS hP' hT]

/-- C4 witness: the check order instantiated on group 10 for the
non-member Dave (user 4). -/
theorem C4_precondition_order_witness :
    grupoGet exDB 10 = some exGrupoNatal
    ∧ ((membroFirst exDB 4 10 = none →
      realizar_sorteio_individual exDB 4 10 0 "tokA" 200 2 = (.notMember, exDB)
      ∧ DrawResult.httpStatus .notMember = 403)
    ∧ (∀ m s, membroFirst exDB 4 10 = some m → sorteioFirst exDB 4 10 = some s →
      realizar_sorteio_individual exDB 4 10 0 "tokA" 200 2 = (.alreadyDrawn s.token_acesso, exDB)
      ∧ DrawResult.httpStatus (.alreadyDrawn s.token_acesso) = 400)
    ∧ (∀ m, membroFirst exDB 4 10 = some m → sorteioFirst exDB 4 10 = none →
      participantes exDB 4 10 = [] →
      realizar_sorteio_individual exDB 4 10 0 "tokA" 200 2 = (.noCandidates, exDB)
      ∧ DrawResult.httpStatus .noCandidates = 400)
    ∧ (∀ m, membroFirst exDB 4 10 = some m → sorteioFirst exDB 4 10 = none →
      participantes exDB 4 10 ≠ [] →
      exDB.sorteios.any (fun s => s.token_acesso == "tokA") = false →
      ∃ u, u ∈ participantes exDB 4 10 ∧
        (realizar_sorteio_individual exDB 4 10 0 "tokA" 200 2).1 =
          .success u.id u.nome u.email "tokA"
        ∧ DrawResult.httpStatus (.success u.id u.nome u.email "tokA") = 200)) :=
  ⟨by decide, C4_precondition_order exDB 4 10 0 "tokA" 200 2 exGrupoNatal (by decide)⟩

/-- C5: given the token resolves to a draw whose group row exists, the
reveal succeeds exactly when the requesting user is the draw's owner; any
other authenticated user is denied with a redirect and no state change,
token validity notwithstanding. -/
theorem C5_owner_only_reveal (db : DB) (uid : Nat) (token : String) (now : Nat)
    (s : SorteioIndividual) (g : Grupo)
    (hfind : db.sorteios.find? (fun t => t.token_acesso == token) = some s)
    (hg : grupoGet db s.grupo_id = some g) :
    (s.usuario_id ≠ uid → ver_meu_sorteio db uid token now = (.forbidden, db))
    ∧ ((∃ a, (ver_meu_sorteio db uid token now).1 = .success a) ↔ uid = s.usuario_id) := by
  constructor
  · intro hne
    exact ver_forbidden db uid token now s hfind hne
  · constructor
    · rintro ⟨a, ha⟩
      by_contra hne
      have hforb := ver_forbidden db uid token now s hfind (fun h' => hne h'.symm)
      rw [hforb] at ha
      exact absurd ha (by simp)
    · intro heq
      exact ⟨s.amigo_sorteado_id, ver_ok db uid token now s g hfind heq.symm hg⟩

/-- C5 witness: Bob's token "tokB" reveals for Bob (user 2) and for nobody
else; instantiated at Bob himself. -/
theorem C5_owner_only_reveal_witness :
    (exDB.sorteios.find? (fun t => t.token_acesso == "tokB") =
      some ⟨1, 2, 10, 3, 100, none, 0, "tokB"⟩
    ∧ grupoGet exDB 10 = some exGrupoNatal)
    ∧ (((⟨1, 2, 10, 3, 100, none, 0, "tokB"⟩ : SorteioIndividual).usuario_id ≠ 2 →
        ver_meu_sorteio exDB 2 "tokB" 300 = (.forbidden, exDB))
      ∧ ((∃ a, (ver_meu_sorteio exDB 2 "tokB" 300).1 = .success a) ↔
          2 = (⟨1, 2, 10, 3, 100, none, 0, "tokB"⟩ : SorteioIndividual).usuario_id)) :=
  ⟨⟨by decide, by decide⟩,
    C5_owner_only_reveal exDB 2 "tokB" 300 ⟨1, 2, 10, 3, 100, none, 0, "tokB"⟩
      exGrupoNatal (by decide) (by decide)⟩

/-- C6: on every authorized reveal the resolved draw is updated by
`registrar_visualizacao`, which increments the view counter by exactly one
and stamps the last-viewed time with the current clock, a value no earlier
than any previous stamp when the clock has not gone backwards. -/
theorem C6_record_view (db : DB) (uid : Nat) (token : String) (now : Nat)
    (s : SorteioIndividual)
    (hfind : db.sorteios.find? (fun t => t.token_acesso == token) = some s)
    (hown : s.usuario_id = uid) :
    ((ver_meu_sorteio db uid token now).2).sorteios =
      db.sorteios.map (fun t => if t.id == s.id then registrar_visualizacao s now else t)
    ∧ (registrar_visualizacao s now).vezes_visualizado = s.vezes_visualizado + 1
    ∧ (registrar_visualizacao s now).ultima_visualizacao = some now
    ∧ (∀ p, s.ultima_visualizacao = some p → p ≤ now →
        ∃ q, (registrar_visualizacao s now).ultima_visualizacao = some q ∧ p ≤ q) := by
  refine ⟨?_, rfl, rfl, ?_⟩
  · rw [ver_authorized_state db uid token now s hfind hown]
  · intro p _ hp
    exact ⟨now, rfl, hp⟩

/-- C6 witness: Bob views his draw a second time at clock 300 after a first
view at 250; the counter goes from 1 to 2 and the stamp from 250 to 300. -/
theorem C6_record_view_witness :
    (({ exDB with sorteios := [⟨1, 2, 10, 3, 100, some 250, 1, "tokB"⟩] } : DB).sorteios.find?
        (fun t => t.token_acesso == "tokB") = some ⟨1, 2, 10, 3, 100, some 250, 1, "tokB"⟩
      ∧ (⟨1, 2, 10, 3, 100, some 250, 1, "tokB"⟩ : SorteioIndividual).usuario_id = 2)
    ∧ (((ver_meu_sorteio { exDB with sorteios := [⟨1, 2, 10, 3, 100, some 250, 1, "tokB"⟩] }
          2 "tokB" 300).2).sorteios =
        ({ exDB with sorteios := [⟨1, 2, 10, 3, 100, some 250, 1, "tokB"⟩] } : DB).sorteios.map
          (fun t => if t.id == (⟨1, 2, 10, 3, 100, some 250, 1, "tokB"⟩ : SorteioIndividual).id
            then registrar_visualizacao ⟨1, 2, 10, 3, 100, some 250, 1, "tokB"⟩ 300 else t)
      ∧ (registrar_visualizacao ⟨1, 2, 10, 3, 100, some 250, 1, "tokB"⟩ 300).vezes_visualizado =
          (⟨1, 2, 10, 3, 100, some 250, 1, "tokB"⟩ : SorteioIndividual).vezes_visualizado + 1
      ∧ (registrar_visualizacao ⟨1, 2, 10, 3, 100, some 250, 1, "tokB"⟩ 300).ultima_visualizacao =
          some 300
      ∧ (∀ p, (⟨1, 2, 10, 3, 100, some 250, 1, "tokB"⟩ : SorteioIndividual).ultima_visualizacao =
            some p → p ≤ 300 →
          ∃ q, (registrar_visualizacao ⟨1, 2, 10, 3, 100, some 250, 1, "tokB"⟩ 300).ultima_visualizacao =
            some q ∧ p ≤ q)) :=
  ⟨⟨by decide, by decide⟩,
    C6_record_view { exDB with sorteios := [⟨1, 2, 10, 3, 100, some 250, 1, "tokB"⟩] }
      2 "tokB" 300 ⟨1, 2, 10, 3, 100, some 250, 1, "tokB"⟩ (by decide) (by decide)⟩

/-- C7: the access token of a draw is fixed at creation (the success
payload returns exactly the freshly generated token, and recording a view
never changes a stored token), and both routes preserve the invariant that
all stored tokens are pairwise distinct — the database unique constraint on
`token_acesso` rejects a colliding insert. -/
theorem C7_tokens_pairwise_distinct (db : DB) (uid gid k : Nat) (tok : String)
    (now newId : Nat) (uid2 now2 : Nat) (tok2 : String) (s : SorteioIndividual)
    (hids : (db.sorteios.map (fun t => t.id)).Nodup)
    (htd : tokensDistinct db.sorteios) :
    tokensDistinct ((realizar_sorteio_individual db uid gid k tok now newId).2).sorteios
    ∧ tokensDistinct ((ver_meu_sorteio db uid2 tok2 now2).2).sorteios
    ∧ (registrar_visualizacao s now2).token_acesso = s.token_acesso
    ∧ (∀ aid nm em t,
        (realizar_sorteio_individual db uid gid k tok now newId).1 = .success aid nm em t →
        t = tok) := by
  refine ⟨tokensDistinct_realizar db uid gid k tok now newId htd,
    tokensDistinct_ver db uid2 tok2 now2 hids htd, rfl, ?_⟩
  intro aid nm em t h
  obtain ⟨u, -, -, -, -, ht, -⟩ :=
    realizar_success_inv db uid gid k tok now newId aid nm em t h
  exact ht

/-- C7 witness: Alice draws with fresh token "tokA" while Bob re-views his
own draw; both post-states keep all tokens pairwise distinct. -/
theorem C7_tokens_pairwise_distinct_witness :
    ((exDB.sorteios.map (fun t => t.id)).Nodup ∧ tokensDistinct exDB.sorteios)
    ∧ (tokensDistinct ((realizar_sorteio_individual exDB 1 10 0 "tokA" 200 2).2).sorteios
    ∧ tokensDistinct ((ver_meu_sorteio exDB 2 "tokB" 300).2).sorteios
    ∧ (registrar_visualizacao ⟨1, 2, 10, 3, 100, none, 0, "tokB"⟩ 300).token_acesso =
        (⟨1, 2, 10, 3, 100, none, 0, "tokB"⟩ : SorteioIndividual).token_acesso
    ∧ (∀ aid nm em t,
        (realizar_sorteio_individual exDB 1 10 0 "tokA" 200 2).1 = .success aid nm em t →
        t = "tokA")) :=
  ⟨⟨by decide, by unfold tokensDistinct; decide⟩,
    C7_tokens_pairwise_distinct exDB 1 10 0 "tokA" 200 2 2 300 "tokB"
      ⟨1, 2, 10, 3, 100, none, 0, "tokB"⟩ (by decide) (by unfold tokensDistinct; decide)⟩

/-- C9: a reveal denied because the requester is not the draw's owner
leaves the database — in particular the draw's view counter and last-viewed
stamp — completely unchanged: authorization is checked before
`registrar_visualizacao` runs. -/
theorem C9_denied_view_no_effect (db : DB) (uid : Nat) (token : String) (now : Nat)
    (s : SorteioIndividual)
    (hfind : db.sorteios.find? (fun t => t.token_acesso == token) = some s)
    (hne : s.usuario_id ≠ uid) :
    ver_meu_sorteio db uid token now = (.forbidden, db)
    ∧ ((ver_meu_sorteio db uid token now).2).sorteios = db.sorteios := by
  have h := ver_forbidden db uid token now s hfind hne
  exact ⟨h, by rw [h]⟩

/-- C9 witness: Alice (user 1) presenting Bob's token "tokB" is denied and
the draw table is untouched. -/
theorem C9_denied_view_no_effect_witness :
    (exDB.sorteios.find? (fun t => t.token_acesso == "tokB") =
      some ⟨1, 2, 10, 3, 100, none, 0, "tokB"⟩
    ∧ (⟨1, 2, 10, 3, 100, none, 0, "tokB"⟩ : SorteioIndividual).usuario_id ≠ 1)
    ∧ (ver_meu_sorteio exDB 1 "tokB" 300 = (.forbidden, exDB)
    ∧ ((ver_meu_sorteio exDB 1 "tokB" 300).2).sorteios = exDB.sorteios) :=
  ⟨⟨by decide, by decide⟩,
    C9_denied_view_no_effect exDB 1 "tokB" 300 ⟨1, 2, 10, 3, 100, none, 0, "tokB"⟩
      (by decide) (by decide)⟩

/-- C10: being a group's admin confers no draw privilege: an admin without
a membership row is rejected by the draw route with the not-a-member error
(HTTP 403), even though the group page admits a non-member admin through
its explicit admin bypass. -/
theorem C10_admin_cannot_draw (db : DB) (uid gid k : Nat) (tok : String)
    (now newId : Nat) (g : Grupo)
    (hG : grupoGet db gid = some g) (hadm : g.admin_id = uid)
    (hmem : membroFirst db uid gid = none) :
    realizar_sorteio_individual db uid gid k tok now newId = (.notMember, db)
    ∧ DrawResult.httpStatus .notMember = 403
    ∧ ver_grupo db uid gid = .ok := by
  refine ⟨realizar_not_member db uid gid k tok now newId g hG hmem, rfl, ?_⟩
  simp [ver_grupo, hG, hmem, hadm]

/-- C10 witness: Dave (user 4) administers group 20 without being a member;
he may view the group but drawing yields the 403 not-a-member error. -/
theorem C10_admin_cannot_draw_witness :
    (grupoGet exDB 20 = some exGrupoFesta ∧ exGrupoFesta.admin_id = 4
      ∧ membroFirst exDB 4 20 = none)
    ∧ (realizar_sorteio_individual exDB 4 20 0 "tokA" 200 2 = (.notMember, exDB)
    ∧ DrawResult.httpStatus .notMember = 403
    ∧ ver_grupo exDB 4 20 = .ok) :=
  ⟨⟨by decide, by decide, by decide⟩,
    C10_admin_cannot_draw exDB 4 20 0 "tokA" 200 2 exGrupoFesta
      (by decide) (by decide) (by decide)⟩

/-- C8: the per-member status aggregate is admin-only (anyone else gets the
forbidden error), read-only (the database is returned unchanged), yields
exactly one entry per current member in member order, and each entry has
`ja_sorteou` true precisely when a draw row exists for that member in the
group, with the timestamp and (given recipients have user rows) the
recipient name present precisely when `ja_sorteou`; for the admin the JSON
carries the group id, name and one entry per member. -/
theorem C8_status_aggregator (db : DB) (uid gid : Nat) (g : Grupo)
    (hG : grupoGet db gid = some g)
    (hfk : ∀ s ∈ db.sorteios, ∃ u ∈ db.users, u.id = s.amigo_sorteado_id) :
    (g.admin_id ≠ uid → api_status_sorteio db uid gid = (.forbidden, db))
    ∧ (api_status_sorteio db uid gid).2 = db
    ∧ (status_sorteio_membros db g).map (fun st => st.membro) = membrosDoGrupo db g.id
    ∧ (∀ st ∈ status_sorteio_membros db g,
        (st.ja_sorteou = true ↔
          ∃ s, s ∈ db.sorteios ∧ s.usuario_id = st.membro.usuario_id ∧ s.grupo_id = g.id)
        ∧ (st.data_sorteio ≠ none ↔ st.ja_sorteou = true)
        ∧ (st.amigo_sorteado ≠ none ↔ st.ja_sorteou = true))
    ∧ (g.admin_id = uid → ∃ entries,
        (api_status_sorteio db uid gid).1 =
          .ok g.id g.nome (status_sorteio_membros db g).length entries
        ∧ entries.length = (membrosDoGrupo db g.id).length) := by
  refine ⟨fun hadm => api_forbidden db uid gid g hG hadm, api_state db uid gid,
    status_membros_proj db g, ?_, ?_⟩
  · intro st hst
    obtain ⟨-, h2, h3, h4⟩ := status_entry db g st hst
    exact ⟨h2, h3, h4 hfk⟩
  · intro hadm
    refine ⟨(status_sorteio_membros db g).map (fun st =>
      ({ id := st.membro.id
         usuario_id := st.membro.usuario_id
         nome := (userById db st.membro.usuario_id).map (fun u => u.nome)
         email := (userById db st.membro.usuario_id).map (fun u => u.email)
         ja_sorteou := st.ja_sorteou
         data_sorteio := st.data_sorteio
         amigo_sorteado := st.amigo_sorteado.map (fun u => u.nome) } : StatusEntry)), ?_, ?_⟩
    · simp [api_status_sorteio, hG, hadm]
    · rw [List.length_map, ← status_membros_proj db g, List.length_map]

/-- C8 witness: Alice administers group 10 with three members of whom
exactly Bob has drawn; the aggregate has three entries, one of them marked
drawn with a recipient name. -/
theorem C8_status_aggregator_witness :
    (grupoGet exDB 10 = some exGrupoNatal
      ∧ (∀ s ∈ exDB.sorteios, ∃ u ∈ exDB.users, u.id = s.amigo_sorteado_id))
    ∧ ((exGrupoNatal.admin_id ≠ 1 → api_status_sorteio exDB 1 10 = (.forbidden, exDB))
    ∧ (api_status_sorteio exDB 1 10).2 = exDB
    ∧ (status_sorteio_membros exDB exGrupoNatal).map (fun st => st.membro) =
        membrosDoGrupo exDB exGrupoNatal.id
    ∧ (∀ st ∈ status_sorteio_membros exDB exGrupoNatal,
        (st.ja_sorteou = true ↔
          ∃ s, s ∈ exDB.sorteios ∧ s.usuario_id = st.membro.usuario_id
            ∧ s.grupo_id = exGrupoNatal.id)
        ∧ (st.data_sorteio ≠ none ↔ st.ja_sorteou = true)
        ∧ (st.amigo_sorteado ≠ none ↔ st.ja_sorteou = true))
    ∧ (exGrupoNatal.admin_id = 1 → ∃ entries,
        (api_status_sorteio exDB 1 10).1 =
          .ok exGrupoNatal.id exGrupoNatal.nome
            (status_sorteio_membros exDB exGrupoNatal).length entries
        ∧ entries.length = (membrosDoGrupo exDB exGrupoNatal.id).length))
    ∧ (status_sorteio_membros exDB exGrupoNatal).length = 3
    ∧ ((status_sorteio_membros exDB exGrupoNatal).filter (fun st => st.ja_sorteou)).length = 1
    ∧ (∀ st ∈ (status_sorteio_membros exDB exGrupoNatal).filter (fun st => st.ja_sorteou),
        st.amigo_sorteado ≠ none) :=
  ⟨⟨by decide, by decide⟩,
    C8_status_aggregator exDB 1 10 exGrupoNatal (by decide) (by decide),
    by decide, by decide, by decide⟩
